import Mathlib

/-!
Shallow embedding of the LowestPrice-BE product catalog read layer:
`src/product/product.repository.ts` (ProductRepository) and the input
coercions of `src/product/product.controller.ts` (ProductController).
The Prisma store is modelled as in-memory lists; `findMany` with a
`where` object becomes `List.filter`, `findUnique`/`findFirst` become
`List.find?`, `orderBy` becomes a stable sort, `take` becomes
`List.take`, and a thrown domain exception becomes `Except.error`.
-/

deriving instance DecidableEq for Except

namespace LowestPrice

/-- A JavaScript runtime value, as far as the `isOutOfStock` argument is
concerned: the repository signature says `boolean`, but the controller
forwards a raw query string (or `undefined` when the query parameter is
absent), so the strict comparison `isOutOfStock === false` in the
repository sees booleans, strings, numbers, `null` or `undefined`. -/
inductive JsVal where
  | bool (b : Bool)
  | num (n : Int)
  | str (s : String)
  | null
  | undef
deriving DecidableEq, Repr

/-- A row of the `Product` table, with the fields the repository selects.
Timestamps are modelled as integers; the many-to-many `ProductCategory`
join is flattened into the list of category names the product belongs to. -/
structure Product where
  productId : Int
  realId : Int
  coupangItemId : Int
  coupangVendorId : Int
  productName : String
  productImage : String
  isOutOfStock : Bool
  originalPrice : Int
  currentPrice : Int
  discountRate : Option Int
  cardDiscount : Option Int
  productUrl : String
  productPartnersUrl : String
  createdAt : Int
  updatedAt : Int
  categoryNames : List String
deriving DecidableEq, Repr

/-- A row of the `Category` table (`categoryName` is unique). -/
structure Category where
  categoryId : Int
  categoryName : String
deriving DecidableEq, Repr

/-- The relational store the Prisma client reaches: products, categories,
and the `UserProduct` notification-subscription rows as (UserId, ProductId). -/
structure Store where
  categories : List Category
  products : List Product
  userProducts : List (Int × Int)
deriving DecidableEq, Repr

/-- The domain exceptions of `src/common/exceptions/custom-exception`. -/
inductive RepoError where
  | NotFoundCategory
  | NotFoundCategoryFilter
  | NotFoundProduct
deriving DecidableEq, Repr

/-- `prisma.category.findUnique({ where: { categoryName } })`. -/
def findCategory (store : Store) (categoryName : String) : Option Category :=
  store.categories.find? fun c => c.categoryName == categoryName

/-- The `additionalCondition` array built by `getAllProducts`,
`getProductsByCategory` and `getProductsByCategoryAndFilter`: the clause
`{ isOutOfStock: false }` is pushed exactly when `isOutOfStock === false`. -/
def stockClauses (isOutOfStock : JsVal) : List (Product → Bool) :=
  if isOutOfStock = JsVal.bool false then [fun p => p.isOutOfStock == false] else []

/-- The `whereCondition` of `getAllProducts`: the conjunction of the
(possibly empty) additional stock clause; nothing else. -/
def whereAll (isOutOfStock : JsVal) (p : Product) : Bool :=
  (stockClauses isOutOfStock).all fun c => c p

/-- The `baseCondition` of the two category-scoped queries: membership in
the named category (`ProductCategory: some: Category: categoryName`)
AND `NOT: { discountRate: null }`. -/
def baseCondition (categoryName : String) (p : Product) : Bool :=
  p.categoryNames.contains categoryName && !(p.discountRate == none)

/-- The `whereCondition` (`AND: [baseCondition, ...additionalCondition]`)
of `getProductsByCategory` and `getProductsByCategoryAndFilter`. -/
def whereCat (categoryName : String) (isOutOfStock : JsVal) (p : Product) : Bool :=
  baseCondition categoryName p && (stockClauses isOutOfStock).all fun c => c p

/-- `ProductRepository.getAllProducts`: unconditioned `findMany` except for
the optional stock clause; returns the (possibly empty) list and never
throws — its result type has no error case, mirroring the source. -/
def getAllProducts (userId : Option Int) (isOutOfStock : JsVal) (store : Store) :
    List Product :=
  store.products.filter (whereAll isOutOfStock)

/-- `ProductRepository.getProductsByCategory`: category existence check
(throws `NotFoundCategoryException` on a missing category), then
`findMany` under `whereCat`, then `NotFoundProductException` when the
result list is empty. The `userId` parameter is accepted and unused
(the notification-status block in the source is commented out). -/
def getProductsByCategory (categoryName : String) (userId : Option Int)
    (isOutOfStock : JsVal) (store : Store) : Except RepoError (List Product) :=
  match findCategory store categoryName with
  | none => .error .NotFoundCategory
  | some _ =>
    let products := store.products.filter (whereCat categoryName isOutOfStock)
    if products.length = 0 then .error .NotFoundProduct else .ok products

/-- A Prisma `orderBy` field. -/
inductive SortField where
  | discountRate
  | currentPrice
deriving DecidableEq, Repr

/-- A Prisma `orderBy` direction. -/
inductive SortDir where
  | asc
  | desc
deriving DecidableEq, Repr

/-- The `switch (filter)` of `getProductsByCategoryAndFilter`: the closed
enumeration of filter tokens and their `orderBy` objects; `none` stands for
the `default:` branch that throws `NotFoundCategoryFilterException`. -/
def resolveOrderBy (filter : String) : Option (SortField × SortDir) :=
  if filter = "discountRate_desc" then some (SortField.discountRate, SortDir.desc)
  else if filter = "price_asc" then some (SortField.currentPrice, SortDir.asc)
  else if filter = "price_desc" then some (SortField.currentPrice, SortDir.desc)
  else none

/-- The comparison the store uses for a resolved `orderBy` (a `none`
discount rate is read as 0; both category-filtered sort fields are
non-null in context). -/
def sortLe (ob : SortField × SortDir) (a b : Product) : Bool :=
  match ob.1, ob.2 with
  | SortField.discountRate, SortDir.asc => a.discountRate.getD 0 ≤ b.discountRate.getD 0
  | SortField.discountRate, SortDir.desc => b.discountRate.getD 0 ≤ a.discountRate.getD 0
  | SortField.currentPrice, SortDir.asc => a.currentPrice ≤ b.currentPrice
  | SortField.currentPrice, SortDir.desc => b.currentPrice ≤ a.currentPrice

/-- `ProductRepository.getProductsByCategoryAndFilter`: category existence
check, filter-token resolution (`NotFoundCategoryFilterException` on the
default branch), `findMany` under the same `whereCat` predicate with the
resolved `orderBy` (modelled as a stable sort), then
`NotFoundProductException` when the result list is empty. -/
def getProductsByCategoryAndFilter (categoryName : String) (filter : String)
    (userId : Option Int) (isOutOfStock : JsVal) (store : Store) :
    Except RepoError (List Product) :=
  match findCategory store categoryName with
  | none => .error .NotFoundCategory
  | some _ =>
    match resolveOrderBy filter with
    | none => .error .NotFoundCategoryFilter
    | some ob =>
      let filtered := store.products.filter (whereCat categoryName isOutOfStock)
      let products := List.insertionSort (fun a b => sortLe ob a b = true) filtered
      if products.length = 0 then .error .NotFoundProduct else .ok products

/-- The `where` object of `getTop10Products`:
`AND [NOT discountRate = 0, NOT discountRate = null, isOutOfStock = false]`. -/
def top10Where (p : Product) : Bool :=
  !(p.discountRate == some 0) && !(p.discountRate == none) && (p.isOutOfStock == false)

/-- The `orderBy: { discountRate: 'desc' }` comparison of `getTop10Products`. -/
def top10Le (a b : Product) : Bool :=
  b.discountRate.getD 0 ≤ a.discountRate.getD 0

/-- `ProductRepository.getTop10Products`: `findMany` under `top10Where`,
sorted by discount rate descending, `take: 10`, then
`NotFoundProductException` when the capped list is empty. -/
def getTop10Products (userId : Option Int) (store : Store) :
    Except RepoError (List Product) :=
  let filtered := store.products.filter top10Where
  let sorted := List.insertionSort (fun a b => top10Le a b = true) filtered
  let products := sorted.take 10
  if products.length = 0 then .error .NotFoundProduct else .ok products

/-- `ProductRepository.getProductDetail`: `findUnique` by `productId`,
`NotFoundProductException` when no row matches. -/
def getProductDetail (productId : Int) (userId : Option Int) (store : Store) :
    Except RepoError Product :=
  match store.products.find? (fun p => p.productId == productId) with
  | none => .error .NotFoundProduct
  | some p => .ok p

/-- `ProductRepository.checkNotification`: `userProduct.findFirst` on the
(UserId, ProductId) pair; the source returns the found row or `null`, and
callers read its truthiness as the existence boolean. -/
def checkNotification (productId : Int) (userId : Int) (store : Store) :
    Option (Int × Int) :=
  store.userProducts.find? fun r => r.1 == userId && r.2 == productId

/-- Reads a nonempty run of decimal digits as a natural number; any
non-digit character yields `none`. -/
def decDigitsToNat? (cs : List Char) : Option Nat :=
  cs.foldl
    (fun acc c =>
      match acc with
      | none => none
      | some n => if c.isDigit then some (n * 10 + (c.toNat - 48)) else none)
    (some 0)

/-- JavaScript `Number(s)` on a cursor query string, restricted to the
optional-sign decimal strings the route receives: the empty string
coerces to 0, a decimal numeral (optionally signed) to its value, and
anything else to NaN, modelled as `none`. -/
def jsNumberOfString (s : String) : Option Int :=
  match s.data with
  | [] => some 0
  | '-' :: rest =>
    if rest.isEmpty then none else (decDigitsToNat? rest).map fun n => -(n : Int)
  | '+' :: rest =>
    if rest.isEmpty then none else (decDigitsToNat? rest).map fun n => (n : Int)
  | cs => (decDigitsToNat? cs).map fun n => (n : Int)

/-- JavaScript `Number(x)` where `x` is the raw `lastId` query parameter:
`undefined` (absent parameter, `none`) coerces to NaN. -/
def jsNumber : Option String → Option Int
  | none => none
  | some s => jsNumberOfString s

/-- `ProductController`'s cursor coercion
`const lastId = Number(lastIdString) ? Number(lastIdString) : null;`:
the numeric value is kept only when it is truthy (a number is truthy
exactly when it is neither 0 nor NaN), otherwise `lastId` is `null`. -/
def coerceLastId (lastIdString : Option String) : Option Int :=
  match jsNumber lastIdString with
  | some n => if n ≠ 0 then some n else none
  | none => none

/-- Modelled from the spec: the pagination-cursor constraint of the missing
`product.service.ts` — §3 says that when a cursor is present, "results are
constrained to identifiers strictly after the cursor"; an absent cursor
constrains nothing. -/
def cursorCond (cursor : Option Int) (p : Product) : Bool :=
  match cursor with
  | some c => decide (c < p.productId)
  | none => true

/-- Modelled from the spec: `product.service.ts` (the Catalog Query
Service) is not under `src/`; the controller hands `lastId` to
`productService.getProductsByCategory`, and spec §4.3 says `listByCategory`
validates category existence first, builds the predicate via the Condition
Composer, applies the cursor constraint `cursorCond` if present, and fails
with `NotFoundProduct` if the result is empty. -/
def listByCategoryService (categoryName : String) (userId : Option Int)
    (cursor : Option Int) (isOutOfStock : JsVal) (store : Store) :
    Except RepoError (List Product) :=
  match findCategory store categoryName with
  | none => .error .NotFoundCategory
  | some _ =>
    let products :=
      store.products.filter fun p =>
        whereCat categoryName isOutOfStock p && cursorCond cursor p
    if products.length = 0 then .error .NotFoundProduct else .ok products

/-- Demo product 1: in the "shoes" category, 10 percent discount, in stock
(spec §8, Scenario A). -/
def prod1 : Product :=
  { productId := 1, realId := 101, coupangItemId := 11, coupangVendorId := 21
    productName := "sneaker", productImage := "img1", isOutOfStock := false
    originalPrice := 100, currentPrice := 90, discountRate := some 10
    cardDiscount := none, productUrl := "u1", productPartnersUrl := "pu1"
    createdAt := 0, updatedAt := 0, categoryNames := ["shoes"] }

/-- Demo product 2: in the "shoes" category, `null` discount rate, in stock
(spec §8, Scenario A). -/
def prod2 : Product :=
  { productId := 2, realId := 102, coupangItemId := 12, coupangVendorId := 22
    productName := "boot", productImage := "img2", isOutOfStock := false
    originalPrice := 200, currentPrice := 200, discountRate := none
    cardDiscount := none, productUrl := "u2", productPartnersUrl := "pu2"
    createdAt := 0, updatedAt := 0, categoryNames := ["shoes"] }

/-- Demo product 3: in the "shoes" category, 20 percent discount, out of stock. -/
def prod3 : Product :=
  { productId := 3, realId := 103, coupangItemId := 13, coupangVendorId := 23
    productName := "sandal", productImage := "img3", isOutOfStock := true
    originalPrice := 50, currentPrice := 40, discountRate := some 20
    cardDiscount := none, productUrl := "u3", productPartnersUrl := "pu3"
    createdAt := 0, updatedAt := 0, categoryNames := ["shoes"] }

/-- Demo product 5: in the "shoes" category, 30 percent discount, in stock,
identifier after the cursor value 1. -/
def prod5 : Product :=
  { productId := 5, realId := 105, coupangItemId := 15, coupangVendorId := 25
    productName := "loafer", productImage := "img5", isOutOfStock := false
    originalPrice := 100, currentPrice := 70, discountRate := some 30
    cardDiscount := none, productUrl := "u5", productPartnersUrl := "pu5"
    createdAt := 0, updatedAt := 0, categoryNames := ["shoes"] }

/-- Demo store: one category "shoes", four products, one subscription row. -/
def demoStore : Store :=
  { categories := [{ categoryId := 1, categoryName := "shoes" }]
    products := [prod1, prod2, prod3, prod5]
    userProducts := [(7, 1)] }

/-- Demo store with a valid category but no products. -/
def emptyStore : Store :=
  { categories := [{ categoryId := 1, categoryName := "shoes" }]
    products := []
    userProducts := [] }

example : getProductsByCategory "shoes" none (JsVal.bool true) demoStore
    = .ok [prod1, prod3, prod5] := by decide
example : getProductsByCategory "shoes" none (JsVal.bool false) demoStore
    = .ok [prod1, prod5] := by decide
example : getProductsByCategory "bags" none JsVal.undef demoStore
    = .error .NotFoundCategory := by decide
example : getProductsByCategoryAndFilter "shoes" "price_asc" none (JsVal.str "false") demoStore
    = .ok [prod3, prod5, prod1] := by decide
example : getProductsByCategoryAndFilter "shoes" "price_bogus" none JsVal.undef demoStore
    = .error .NotFoundCategoryFilter := by decide
example : getTop10Products none demoStore = .ok [prod5, prod1] := by decide
example : listByCategoryService "shoes" none (some 1) (JsVal.bool true) demoStore
    = .ok [prod3, prod5] := by decide
example : coerceLastId (some "12") = some 12 := by decide
example : coerceLastId (some "abc") = none := by decide
example : coerceLastId (some "") = none := by decide
example : coerceLastId (some "0") = none := by decide
example : coerceLastId none = none := by decide
example : (checkNotification 1 7 demoStore).isSome = true := by decide

/-! Inversion lemmas for the success and failure cases of the listing
operations. -/

lemma getProductsByCategory_ok_eq (name : String) (u : Option Int) (flag : JsVal)
    (store : Store) (l : List Product)
    (h : getProductsByCategory name u flag store = Except.ok l) :
    l = store.products.filter (whereCat name flag) := by
  unfold getProductsByCategory at h
  cases hf : findCategory store name <;> rw [hf] at h
  · exact absurd h (by simp)
  · simp only [] at h
    split at h
    · exact absurd h (by simp)
    · exact (Except.ok.inj h).symm

lemma getProductsByCategoryAndFilter_ok_eq (name filt : String) (u : Option Int)
    (flag : JsVal) (store : Store) (l : List Product)
    (h : getProductsByCategoryAndFilter name filt u flag store = Except.ok l) :
    ∃ ob, resolveOrderBy filt = some ob ∧
      l = List.insertionSort (fun a b => sortLe ob a b = true)
            (store.products.filter (whereCat name flag)) := by
  unfold getProductsByCategoryAndFilter at h
  cases hf : findCategory store name <;> rw [hf] at h
  · exact absurd h (by simp)
  · cases hr : resolveOrderBy filt <;> rw [hr] at h
    · exact absurd h (by simp)
    · rename_i ob
      refine ⟨ob, rfl, ?_⟩
      simp only [] at h
      split at h
      · exact absurd h (by simp)
      · exact (Except.ok.inj h).symm

lemma whereCat_discountRate_ne_none (name : String) (flag : JsVal) (p : Product)
    (h : whereCat name flag p = true) : p.discountRate ≠ none := by
  unfold whereCat baseCondition at h
  simp only [Bool.and_eq_true, Bool.not_eq_true', beq_eq_false_iff_ne] at h
  exact h.1.2

/-- Claim C1: a product whose discount rate is null is absent from the result
of every category-scoped listing (`getProductsByCategory` and
`getProductsByCategoryAndFilter`), whatever the stock-visibility flag,
because `baseCondition` always conjoins `NOT: { discountRate: null }`. -/
theorem claim1_null_discount_excluded (name filt : String) (u : Option Int)
    (flag : JsVal) (store : Store) (p : Product) (l l2 : List Product)
    (hnull : p.discountRate = none)
    (h1 : getProductsByCategory name u flag store = Except.ok l)
    (h2 : getProductsByCategoryAndFilter name filt u flag store = Except.ok l2) :
    p ∉ l ∧ p ∉ l2 := by
  constructor
  · intro hp
    rw [getProductsByCategory_ok_eq name u flag store l h1] at hp
    exact whereCat_discountRate_ne_none name flag p (List.mem_filter.mp hp).2 hnull
  · intro hp
    obtain ⟨ob, -, hl2⟩ := getProductsByCategoryAndFilter_ok_eq name filt u flag store l2 h2
    rw [hl2] at hp
    have hp' : p ∈ store.products.filter (whereCat name flag) :=
      (List.perm_insertionSort _ _).mem_iff.mp hp
    exact whereCat_discountRate_ne_none name flag p (List.mem_filter.mp hp').2 hnull

theorem claim1_witness : prod2 ∉ [prod1, prod3, prod5] ∧ prod2 ∉ [prod3, prod5, prod1] :=
  claim1_null_discount_excluded "shoes" "price_asc" none (JsVal.bool true) demoStore
    prod2 [prod1, prod3, prod5] [prod3, prod5, prod1] rfl (by decide) (by decide)

/-- Claim C2: in `getAllProducts`, `getProductsByCategory` and
`getProductsByCategoryAndFilter` (the latter two via `whereCat`, the
predicate both use), the `isOutOfStock = false` clause is part of the query
predicate exactly when the stock-visibility argument is the boolean `false`;
any other runtime value (boolean `true`, a string, a number, `null`,
`undefined`) adds no stock constraint, so an out-of-stock product that
otherwise matches passes the predicate. -/
theorem claim2_stock_clause_iff_explicit_false (u : Option Int) (flag : JsVal)
    (name : String) (store : Store) (p : Product) :
    whereAll flag p = (if flag = JsVal.bool false then p.isOutOfStock == false else true)
    ∧ whereCat name flag p
      = (baseCondition name p &&
          if flag = JsVal.bool false then p.isOutOfStock == false else true)
    ∧ getAllProducts u flag store = store.products.filter (whereAll flag)
    ∧ (p ∈ getAllProducts u flag store ↔ p ∈ store.products ∧ whereAll flag p = true) := by
  refine ⟨?_, ?_, rfl, ?_⟩
  · unfold whereAll stockClauses
    split <;> simp
  · unfold whereCat stockClauses
    split <;> simp
  · simp [getAllProducts, List.mem_filter]

/-- Claim C4: when the category name has no row in the `Category` table, both
category-scoped listings fail with `NotFoundCategory` for every flag, filter
token and product table content — the error is produced before the product
predicate is built, so the products in the store are never consulted. -/
theorem claim4_missing_category_fails_first (name filt : String) (u : Option Int)
    (flag : JsVal) (store : Store) (h : findCategory store name = none) :
    getProductsByCategory name u flag store = Except.error RepoError.NotFoundCategory
    ∧ getProductsByCategoryAndFilter name filt u flag store
      = Except.error RepoError.NotFoundCategory := by
  unfold getProductsByCategory getProductsByCategoryAndFilter
  rw [h]
  exact ⟨rfl, rfl⟩

theorem claim4_witness :
    getProductsByCategory "bags" none JsVal.undef demoStore
      = Except.error RepoError.NotFoundCategory
    ∧ getProductsByCategoryAndFilter "bags" "price_asc" none JsVal.undef demoStore
      = Except.error RepoError.NotFoundCategory :=
  claim4_missing_category_fails_first "bags" "price_asc" none JsVal.undef demoStore
    (by decide)

lemma listByCategoryService_ok_eq (name : String) (u : Option Int)
    (cursor : Option Int) (flag : JsVal) (store : Store) (l : List Product)
    (h : listByCategoryService name u cursor flag store = Except.ok l) :
    l = store.products.filter fun p =>
          whereCat name flag p && cursorCond cursor p := by
  unfold listByCategoryService at h
  cases hf : findCategory store name <;> rw [hf] at h
  · exact absurd h (by simp)
  · simp only [] at h
    split at h
    · exact absurd h (by simp)
    · exact (Except.ok.inj h).symm

/-- Claim C3: when the service-level category listing is called with a
pagination cursor, every product it returns has an identifier strictly
greater than the cursor; when the cursor is absent, no cursor constraint is
applied and the operation coincides with the repository query. The service
itself is modelled from the spec (`listByCategoryService`), since
`product.service.ts` is not under `src/`. -/
theorem claim3_cursor_constraint (name : String) (u : Option Int) (c : Int)
    (flag : JsVal) (store store2 : Store) (l : List Product)
    (h : listByCategoryService name u (some c) flag store = Except.ok l) :
    (∀ p ∈ l, c < p.productId)
    ∧ listByCategoryService name u none flag store2
      = getProductsByCategory name u flag store2 := by
  constructor
  · intro p hp
    rw [listByCategoryService_ok_eq name u (some c) flag store l h] at hp
    have hcond := (List.mem_filter.mp hp).2
    simp only [cursorCond, Bool.and_eq_true, decide_eq_true_eq] at hcond
    exact hcond.2
  · unfold listByCategoryService getProductsByCategory
    cases findCategory store2 name with
    | none => rfl
    | some cat => simp only [cursorCond, Bool.and_true]

theorem claim3_witness :
    (∀ p ∈ [prod3, prod5], (1 : Int) < p.productId)
    ∧ listByCategoryService "shoes" none none (JsVal.bool true) demoStore
      = getProductsByCategory "shoes" none (JsVal.bool true) demoStore :=
  claim3_cursor_constraint "shoes" none 1 (JsVal.bool true) demoStore demoStore
    [prod3, prod5] (by decide)

/-- Claim C5: `getProductsByCategoryAndFilter` resolves the filter token by
exact match against the closed enumeration, mapping `discountRate_desc` to
(discountRate, descending), `price_asc` to (currentPrice, ascending) and
`price_desc` to (currentPrice, descending); any token outside the
enumeration makes the operation fail with `NotFoundCategoryFilter` even when
the category exists. -/
theorem claim5_filter_token_resolution (name filt : String) (u : Option Int)
    (flag : JsVal) (store : Store)
    (hcat : (findCategory store name).isSome = true)
    (h1 : filt ≠ "discountRate_desc") (h2 : filt ≠ "price_asc")
    (h3 : filt ≠ "price_desc") :
    resolveOrderBy "discountRate_desc" = some (SortField.discountRate, SortDir.desc)
    ∧ resolveOrderBy "price_asc" = some (SortField.currentPrice, SortDir.asc)
    ∧ resolveOrderBy "price_desc" = some (SortField.currentPrice, SortDir.desc)
    ∧ resolveOrderBy filt = none
    ∧ getProductsByCategoryAndFilter name filt u flag store
      = Except.error RepoError.NotFoundCategoryFilter := by
  have hr : resolveOrderBy filt = none := by
    unfold resolveOrderBy
    simp [h1, h2, h3]
  refine ⟨by decide, by decide, by decide, hr, ?_⟩
  obtain ⟨cat, hf⟩ := Option.isSome_iff_exists.mp hcat
  unfold getProductsByCategoryAndFilter
  rw [hf, hr]

theorem claim5_witness :
    resolveOrderBy "discountRate_desc" = some (SortField.discountRate, SortDir.desc)
    ∧ resolveOrderBy "price_asc" = some (SortField.currentPrice, SortDir.asc)
    ∧ resolveOrderBy "price_desc" = some (SortField.currentPrice, SortDir.desc)
    ∧ resolveOrderBy "price_bogus" = none
    ∧ getProductsByCategoryAndFilter "shoes" "price_bogus" none JsVal.undef demoStore
      = Except.error RepoError.NotFoundCategoryFilter :=
  claim5_filter_token_resolution "shoes" "price_bogus" none JsVal.undef demoStore
    (by decide) (by decide) (by decide) (by decide)

lemma getTop10Products_ok_eq (u : Option Int) (store : Store) (l : List Product)
    (h : getTop10Products u store = Except.ok l) :
    l = (List.insertionSort (fun a b => top10Le a b = true)
          (store.products.filter top10Where)).take 10 := by
  unfold getTop10Products at h
  simp only [] at h
  split at h
  · exact absurd h (by simp)
  · exact (Except.ok.inj h).symm

/-- Claim C6: `getTop10Products` returns at most 10 products; every returned
product has a discount rate that is neither 0 nor null and is in stock; the
result is sorted by discount rate descending; and the operation fails with
`NotFoundProduct` exactly when the capped (take-10) result is empty. -/
theorem claim6_top10 (u : Option Int) (store store2 : Store) (l : List Product)
    (h : getTop10Products u store = Except.ok l) :
    l.length ≤ 10
    ∧ (∀ p ∈ l,
        p.discountRate ≠ some 0 ∧ p.discountRate ≠ none ∧ p.isOutOfStock = false)
    ∧ l.Pairwise (fun a b => b.discountRate.getD 0 ≤ a.discountRate.getD 0)
    ∧ (getTop10Products u store2 = Except.error RepoError.NotFoundProduct
        ↔ (List.insertionSort (fun a b => top10Le a b = true)
            (store2.products.filter top10Where)).take 10 = []) := by
  have hl := getTop10Products_ok_eq u store l h
  refine ⟨?_, ?_, ?_, ?_⟩
  · rw [hl]
    exact List.length_take_le 10 _
  · intro p hp
    rw [hl] at hp
    have hp1 := (List.take_sublist 10 _).subset hp
    have hp2 : p ∈ store.products.filter top10Where :=
      (List.perm_insertionSort _ _).mem_iff.mp hp1
    have hw := (List.mem_filter.mp hp2).2
    unfold top10Where at hw
    simp only [Bool.and_eq_true, Bool.not_eq_true', beq_eq_false_iff_ne,
      beq_iff_eq] at hw
    exact ⟨hw.1.1, hw.1.2, hw.2⟩
  · rw [hl]
    haveI htot : IsTotal Product (fun a b => top10Le a b = true) := by
      constructor
      intro a b
      simp only [top10Le, decide_eq_true_eq]
      omega
    haveI htrans : IsTrans Product (fun a b => top10Le a b = true) := by
      constructor
      intro a b c hab hbc
      simp only [top10Le, decide_eq_true_eq] at *
      omega
    have hs := List.sorted_insertionSort (fun a b => top10Le a b = true)
      (store.products.filter top10Where)
    have hs' := hs.sublist (List.take_sublist 10 _)
    exact hs'.imp fun hab => by simpa [top10Le] using hab
  · unfold getTop10Products
    simp only []
    split
    · rename_i hcond
      simp [List.length_eq_zero.mp hcond]
    · rename_i hcond
      have hne : (List.insertionSort (fun a b => top10Le a b = true)
          (store2.products.filter top10Where)).take 10 ≠ [] := by
        intro he
        exact hcond (by rw [he]; rfl)
      exact ⟨fun hcontra => absurd hcontra (by simp), fun hcontra => absurd hcontra hne⟩

theorem claim6_witness :
    ([prod5, prod1] : List Product).length ≤ 10
    ∧ (∀ p ∈ ([prod5, prod1] : List Product),
        p.discountRate ≠ some 0 ∧ p.discountRate ≠ none ∧ p.isOutOfStock = false)
    ∧ ([prod5, prod1] : List Product).Pairwise
        (fun a b => b.discountRate.getD 0 ≤ a.discountRate.getD 0)
    ∧ (getTop10Products none demoStore = Except.error RepoError.NotFoundProduct
        ↔ (List.insertionSort (fun a b => top10Le a b = true)
            (demoStore.products.filter top10Where)).take 10 = []) :=
  claim6_top10 none demoStore demoStore [prod5, prod1] (by decide)

/-- Claim C7: the empty-result policy differs by operation —
`getAllProducts` is a total function into lists (its result type has no
error case: it returns the possibly empty filtered list and raises nothing),
while the two category-scoped listings answer a validly-scoped query with
zero matching rows by failing with `NotFoundProduct`, an error distinct from
`NotFoundCategory`. -/
theorem claim7_empty_result_policy (u : Option Int) (flag : JsVal)
    (name filt : String) (store : Store) (cat : Category)
    (ob : SortField × SortDir)
    (hcat : findCategory store name = some cat)
    (hfilt : resolveOrderBy filt = some ob)
    (hempty : store.products.filter (whereCat name flag) = []) :
    getAllProducts u flag store = store.products.filter (whereAll flag)
    ∧ getProductsByCategory name u flag store
      = Except.error RepoError.NotFoundProduct
    ∧ getProductsByCategoryAndFilter name filt u flag store
      = Except.error RepoError.NotFoundProduct
    ∧ RepoError.NotFoundProduct ≠ RepoError.NotFoundCategory := by
  refine ⟨rfl, ?_, ?_, by decide⟩
  · unfold getProductsByCategory
    rw [hcat]
    simp [hempty]
  · unfold getProductsByCategoryAndFilter
    rw [hcat, hfilt]
    simp [hempty]

theorem claim7_witness :
    getAllProducts none JsVal.undef emptyStore
      = emptyStore.products.filter (whereAll JsVal.undef)
    ∧ getProductsByCategory "shoes" none JsVal.undef emptyStore
      = Except.error RepoError.NotFoundProduct
    ∧ getProductsByCategoryAndFilter "shoes" "price_asc" none JsVal.undef emptyStore
      = Except.error RepoError.NotFoundProduct
    ∧ RepoError.NotFoundProduct ≠ RepoError.NotFoundCategory :=
  claim7_empty_result_policy none JsVal.undef "shoes" "price_asc" emptyStore
    { categoryId := 1, categoryName := "shoes" } (SortField.currentPrice, SortDir.asc)
    (by decide) (by decide) (by decide)

/-- Claim C8: the controller coerces the raw `lastId` query string with
`Number(lastIdString) ? Number(lastIdString) : null`: the cursor is passed
downstream as a number exactly when the string coerces to a truthy (nonzero,
non-NaN) numeric value; a non-numeric string, the empty string, an absent
parameter, or a string coercing to 0 all yield `null`. -/
theorem claim8_cursor_coercion (s : Option String) (n : Int) :
    (coerceLastId s = some n ↔ jsNumber s = some n ∧ n ≠ 0)
    ∧ coerceLastId none = none
    ∧ coerceLastId (some "") = none
    ∧ coerceLastId (some "abc") = none
    ∧ coerceLastId (some "0") = none
    ∧ coerceLastId (some "12") = some 12 := by
  refine ⟨?_, by decide, by decide, by decide, by decide, by decide⟩
  unfold coerceLastId
  cases hj : jsNumber s
  · simp
  · rename_i m
    simp only []
    by_cases hm : m = 0
    · subst hm
      rw [if_neg (fun hcontra => hcontra rfl)]
      constructor
      · intro hcontra
        exact absurd hcontra (by simp)
      · rintro ⟨he, hne⟩
        exact absurd (Option.some.inj he).symm hne
    · rw [if_pos hm]
      constructor
      · intro he
        exact ⟨he, fun hzero => hm (by rw [Option.some.inj he, hzero])⟩
      · rintro ⟨he, -⟩
        exact he

/-- Claim C9: the notification-subscription existence check
(`checkNotification`) answers, for a (userId, productId) pair, whether a
`UserProduct` row pairing that user and product exists: the source returns
the `findFirst` row or `null`, and its truthiness (`isSome`) is the boolean
the callers read. -/
theorem claim9_notification_existence (productId userId : Int) (store : Store) :
    (checkNotification productId userId store).isSome = true
      ↔ ∃ r ∈ store.userProducts, r.1 = userId ∧ r.2 = productId := by
  unfold checkNotification
  rw [List.find?_isSome]
  simp

/-- Claim C10: no product-read operation of the repository observes the
`userId` argument — two runs against the same store that differ only in
`userId` (including `none` for anonymous callers) return equal results, for
`getAllProducts`, `getTop10Products`, `getProductsByCategory`,
`getProductsByCategoryAndFilter` and `getProductDetail`. -/
theorem claim10_userid_noninterference (u1 u2 : Option Int) (flag : JsVal)
    (name filt : String) (pid : Int) (store : Store) :
    getAllProducts u1 flag store = getAllProducts u2 flag store
    ∧ getTop10Products u1 store = getTop10Products u2 store
    ∧ getProductsByCategory name u1 flag store = getProductsByCategory name u2 flag store
    ∧ getProductsByCategoryAndFilter name filt u1 flag store
      = getProductsByCategoryAndFilter name filt u2 flag store
    ∧ getProductDetail pid u1 store = getProductDetail pid u2 store :=
  ⟨rfl, rfl, rfl, rfl, rfl⟩

end LowestPrice
